import Mathlib

/-!
Shallow embedding of the video-call application's core subsystems: the
translation chain (`TranslationService`), the caption pipeline
(`CaptionManager`), the speech-recognition wrapper
(`SpeechRecognitionService`), and the WebRTC session orchestrator
(`WebRTCManager`).

Impure parts (network fetches, the speech engine, PeerJS callbacks,
`Date.now`, generated ids) are modelled by explicit parameters and
effect logs: each operation is a pure function from a state (plus its
external inputs) to a new state together with the ordered list of
external effects it performs.
-/

namespace VideoHack

/-! ## TranslationService (lib/translation/TranslationService.ts) -/

/-- The `service` tag of a `TranslationResult`. -/
inductive Service where
  | libretranslate
  | mymemory
  | fallback
deriving DecidableEq, Repr

structure TranslationResult where
  translatedText : String
  sourceLanguage : String
  targetLanguage : String
  service : Service
deriving DecidableEq, Repr

/-- Parsed body of a LibreTranslate JSON response (`data.translatedText`). -/
structure LibreBody where
  translatedText : String
deriving DecidableEq, Repr

/-- Parsed body of a MyMemory JSON response
(`data.responseStatus`, `data.responseData.translatedText`). -/
structure MyMemoryBody where
  responseStatus : Int
  translatedText : String
deriving DecidableEq, Repr

/-- Outcome of one `fetch`: either the promise rejects (network error) or a
response arrives with an `ok` flag, an HTTP status and a parsed body. -/
inductive FetchOutcome (β : Type) where
  | rejected
  | response (ok : Bool) (status : Nat) (body : β)
deriving DecidableEq, Repr

/-- The network environment one `translate` call runs against: what each
engine's endpoint would answer if it were called. -/
structure TranslationEnv where
  libre : FetchOutcome LibreBody
  mymemory : FetchOutcome MyMemoryBody
deriving DecidableEq, Repr

/-- A network call to one of the two translation engines. -/
inductive EngineCall where
  | libre
  | mymemory
deriving DecidableEq, Repr

namespace TranslationService

/-- Model of `normalizeLanguageCode(langCode)`: `langCode.split('-')[0].toLowerCase()`.
`split('-')[0]` is the text before the first `'-'` (the whole string when no
`'-'` occurs, the empty string for the empty string), modelled on the
character list. -/
def normalizeLanguageCode (langCode : String) : String :=
  String.mk ((langCode.data.takeWhile (fun c => c != '-')).map Char.toLower)

/-- Model of `needsTranslation(sourceLang, targetLang)`. -/
def needsTranslation (sourceLang targetLang : String) : Bool :=
  normalizeLanguageCode sourceLang != normalizeLanguageCode targetLang

/-- Model of `translateWithLibreTranslate`: rejects on network error, throws on
`!response.ok`, otherwise resolves with `data.translatedText`. -/
def translateWithLibreTranslate : FetchOutcome LibreBody → Except Unit String
  | .rejected => .error ()
  | .response ok _ body => if ok then .ok body.translatedText else .error ()

/-- Model of `translateWithMyMemory`: rejects on network error, throws on
`!response.ok` and on `data.responseStatus !== 200`, otherwise resolves
with `data.responseData.translatedText`. -/
def translateWithMyMemory : FetchOutcome MyMemoryBody → Except Unit String
  | .rejected => .error ()
  | .response ok _ body =>
      if !ok then .error ()
      else if body.responseStatus != 200 then .error ()
      else .ok body.translatedText

/-- Model of `translate(text, sourceLang, targetLang)`, returning the result together
with the list of engine calls actually made, in order.  Mirrors the source:
skip when `needsTranslation` is false, try LibreTranslate, on any failure try
MyMemory, on any failure of that return the original text tagged fallback. -/
def translate (env : TranslationEnv) (text sourceLang targetLang : String) :
    TranslationResult × List EngineCall :=
  if !needsTranslation sourceLang targetLang then
    (⟨text, sourceLang, targetLang, .fallback⟩, [])
  else
    match translateWithLibreTranslate env.libre with
    | .ok result => (⟨result, sourceLang, targetLang, .libretranslate⟩, [.libre])
    | .error _ =>
        match translateWithMyMemory env.mymemory with
        | .ok result =>
            (⟨result, sourceLang, targetLang, .mymemory⟩, [.libre, .mymemory])
        | .error _ =>
            (⟨text, sourceLang, targetLang, .fallback⟩, [.libre, .mymemory])

end TranslationService

/-! ## Caption data model (types/index.ts) and CaptionManager
(lib/captions/CaptionManager.ts) -/

/-- The `speaker` tag of a caption (`'local' | 'remote'`). -/
inductive Speaker where
  | localS
  | remoteS
deriving DecidableEq, Repr

structure Caption where
  id : String
  text : String
  originalText : String
  speaker : Speaker
  timestamp : Nat
  language : String
  isTranslated : Bool
deriving DecidableEq, Repr

/-- A caption payload received from the peer:
`Omit<Caption, 'id' | 'timestamp'>`. -/
structure RemoteCaption where
  text : String
  originalText : String
  speaker : Speaker
  language : String
  isTranslated : Bool
deriving DecidableEq, Repr

/-- External effects the caption manager performs: driving the speech
service, calling the translation service, and emitting events. -/
inductive CMEffect where
  | speechStart
  | speechStop
  | translateCall
  | emitCaption (c : Caption)
  | emitError
deriving DecidableEq, Repr

/-- The mutable fields of a `CaptionManager`. -/
structure CaptionManagerState where
  targetLanguage : String
  sourceLanguage : String
  captionQueue : List Caption
  isMuted : Bool
deriving DecidableEq, Repr

namespace CaptionManager

/-- Constructor state: languages default to `'en'`, empty queue, unmuted. -/
def mkState (targetLanguage : Option String) (sourceLanguage : Option String) :
    CaptionManagerState :=
  { targetLanguage := targetLanguage.getD "en",
    sourceLanguage := sourceLanguage.getD "en",
    captionQueue := [], isMuted := false }

/-- Note that `TranslationService.translate` never rejects: every engine failure is
caught inside it and resolved to the fallback passthrough, so the
integrated pipeline always receives a resolved promise.  Tests may still
mock a rejecting `translate`, hence caption operations below take the
translation outcome as an `Except`. -/
def runTranslate (env : TranslationEnv) (text sourceLang targetLang : String) :
    Except Unit TranslationResult :=
  .ok (TranslationService.translate env text sourceLang targetLang).1

/-- Model of `createCaptionFromSpeech(result)`: `originalText` is the recognized
text; when `needsTranslation(source, target)` the translation outcome is
awaited — on success the translated text is used and `isTranslated := true`,
on rejection the original text is kept with `isTranslated := false`. -/
def createCaptionFromSpeech (st : CaptionManagerState) (resultText : String)
    (transResult : Except Unit TranslationResult) (id : String) (now : Nat) :
    Caption :=
  if TranslationService.needsTranslation st.sourceLanguage st.targetLanguage then
    match transResult with
    | .ok tr => ⟨id, tr.translatedText, resultText, .localS, now, st.targetLanguage, true⟩
    | .error _ => ⟨id, resultText, resultText, .localS, now, st.targetLanguage, false⟩
  else
    ⟨id, resultText, resultText, .localS, now, st.targetLanguage, false⟩

/-- The `'result'` handler registered by `setupSpeechRecognitionHandlers`
composed with `handleSpeechResult`: when muted the event is dropped before
any caption creation; otherwise the caption is built (calling the
translation service when a translation is needed), pushed onto the queue
and emitted. -/
def onRecognitionResult (st : CaptionManagerState) (resultText : String)
    (transResult : Except Unit TranslationResult) (id : String) (now : Nat) :
    CaptionManagerState × List CMEffect :=
  if st.isMuted then (st, [])
  else
    let caption := createCaptionFromSpeech st resultText transResult id now
    ({ st with captionQueue := st.captionQueue ++ [caption] },
     (if TranslationService.needsTranslation st.sourceLanguage st.targetLanguage then
        [CMEffect.translateCall] else []) ++ [CMEffect.emitCaption caption])

/-- Model of `processRemoteCaption(remoteCaption)`: re-translates `originalText`
when it is non-empty (JS truthiness) and the local source/target pair
needs translation; on rejection the received text and `isTranslated` flag
are kept; the produced caption always carries `speaker = 'remote'`, a
fresh id and timestamp. -/
def processRemoteCaption (st : CaptionManagerState) (rc : RemoteCaption)
    (transResult : Except Unit TranslationResult) (id : String) (now : Nat) :
    CaptionManagerState × List CMEffect :=
  let doTranslate := rc.originalText != "" &&
    TranslationService.needsTranslation st.sourceLanguage st.targetLanguage
  let outcome : String × Bool × List CMEffect :=
    if doTranslate then
      match transResult with
      | .ok tr => (tr.translatedText, true, [CMEffect.translateCall])
      | .error _ => (rc.text, rc.isTranslated, [CMEffect.translateCall])
    else (rc.text, rc.isTranslated, [])
  let caption : Caption :=
    ⟨id, outcome.1, rc.originalText, .remoteS, now, st.targetLanguage, outcome.2.1⟩
  ({ st with captionQueue := st.captionQueue ++ [caption] },
   outcome.2.2 ++ [CMEffect.emitCaption caption])

/-- Model of `setMuted(muted)`: records the new flag; the `false → true` transition
stops the speech service, `true → false` starts it, and a same-value
transition performs no external call. -/
def setMuted (st : CaptionManagerState) (muted : Bool) :
    CaptionManagerState × List CMEffect :=
  let wasMuted := st.isMuted
  let st1 := { st with isMuted := muted }
  if muted && !wasMuted then (st1, [CMEffect.speechStop])
  else if !muted && wasMuted then (st1, [CMEffect.speechStart])
  else (st1, [])

/-- Model of `startLocalCaptions(targetLanguage?)`. -/
def startLocalCaptions (st : CaptionManagerState) (targetLanguage : Option String) :
    CaptionManagerState × List CMEffect :=
  let st1 := match targetLanguage with
    | some lang => { st with targetLanguage := lang }
    | none => st
  if !st1.isMuted then (st1, [CMEffect.speechStart]) else (st1, [])

/-- Model of `stopLocalCaptions()`. -/
def stopLocalCaptions (st : CaptionManagerState) :
    CaptionManagerState × List CMEffect :=
  (st, [CMEffect.speechStop])

/-- Stable insertion of a caption into a list already sorted by timestamp:
the inserted caption goes before the first entry whose timestamp is not
smaller.  Elements inserted earlier in `sortByTimestamp`'s recursion are
later arrivals, so this places an earlier arrival before later arrivals
with an equal timestamp. -/
def insertByTimestamp (c : Caption) : List Caption → List Caption
  | [] => [c]
  | d :: ds =>
      if c.timestamp ≤ d.timestamp then c :: d :: ds
      else d :: insertByTimestamp c ds

/-- Stable sort by timestamp, modelling the ES2019-stable
`[...queue].sort((a, b) => a.timestamp - b.timestamp)`. -/
def sortByTimestamp : List Caption → List Caption
  | [] => []
  | c :: cs => insertByTimestamp c (sortByTimestamp cs)

/-- Model of `getCaptions()`: the caption queue sorted (stably) by timestamp. -/
def getCaptions (st : CaptionManagerState) : List Caption :=
  sortByTimestamp st.captionQueue

/-- Model of `clearCaptions()`. -/
def clearCaptions (st : CaptionManagerState) : CaptionManagerState :=
  { st with captionQueue := [] }

end CaptionManager

/-! ## SpeechRecognitionService (lib/speech/SpeechRecognitionService.ts) -/

/-- External effects of the speech wrapper: calls into the browser engine
(`recognition.start/stop`) and events emitted to registered handlers. -/
inductive SpeechEffect where
  | engineStart
  | engineStop
  | emitResult
  | emitError
  | emitEnd
  | emitStart
deriving DecidableEq, Repr

/-- Mutable fields of `SpeechRecognitionService`: whether `recognition`
is non-null and the `isRunning` flag. -/
structure SpeechState where
  recognitionSet : Bool
  isRunning : Bool
deriving DecidableEq, Repr

namespace SpeechRecognitionService

/-- The `onend` handler `handleEnd`: clears `isRunning`, emits `'end'`,
then tests `this.recognition && this.isRunning` to decide whether to
restart the engine.  Handlers receiving the `'end'` event are external to
the service and (in this repository) none is registered, so the flag read
by the guard is the one just written. -/
def handleEnd (st : SpeechState) : SpeechState × List SpeechEffect :=
  let st1 : SpeechState := { st with isRunning := false }
  if st1.recognitionSet && st1.isRunning then
    (st1, [SpeechEffect.emitEnd, SpeechEffect.engineStart])
  else
    (st1, [SpeechEffect.emitEnd])

/-- The `onstart` handler `handleStart`. -/
def handleStart (st : SpeechState) : SpeechState × List SpeechEffect :=
  ({ st with isRunning := true }, [SpeechEffect.emitStart])

/-- Model of `stop()`: no-op without an engine or when not running; otherwise
clears the flag and stops the engine. -/
def stop (st : SpeechState) : SpeechState × List SpeechEffect :=
  if !st.recognitionSet then (st, [])
  else if !st.isRunning then (st, [])
  else ({ st with isRunning := false }, [SpeechEffect.engineStop])

end SpeechRecognitionService

/-! ## WebRTCManager (lib/webrtc/WebRTCManager.ts) -/

inductive TrackKind where
  | audio
  | video
deriving DecidableEq, Repr

structure MediaTrack where
  kind : TrackKind
  enabled : Bool
deriving DecidableEq, Repr

structure MediaStream where
  tracks : List MediaTrack
deriving DecidableEq, Repr

def MediaStream.getAudioTracks (s : MediaStream) : List MediaTrack :=
  s.tracks.filter (fun t => t.kind == TrackKind.audio)

def MediaStream.getVideoTracks (s : MediaStream) : List MediaTrack :=
  s.tracks.filter (fun t => t.kind == TrackKind.video)

structure MediaState where
  audioEnabled : Bool
  videoEnabled : Bool
  stream : Option MediaStream
deriving DecidableEq, Repr

/-- Events emitted through the manager's listener map. -/
inductive WEvent where
  | sessionCreated
  | connected
  | disconnected
  | peerDisconnected
  | peerClosed
  | mediaConnectionClosed
  | mediaConnectionError
  | localStreamAcquired
  | remoteStreamReceived
  | dataReceived
  | audioToggled (enabled : Bool)
  | videoToggled (enabled : Bool)
deriving DecidableEq, Repr

/-- External effects of the orchestrator: event emissions plus calls on
the PeerJS objects and media tracks. -/
inductive Effect where
  | emitEvent (e : WEvent)
  | stopTrack (t : MediaTrack)
  | closeConnection
  | closeMediaConnection
  | destroyPeer
  | closeInboundCall
  | closeInboundConn
  | answerCall (s : MediaStream)
  | sendPayload
deriving DecidableEq, Repr

/-- Mutable fields of `WebRTCManager`; `peerSet`, `connection` and
`mediaConnection` record whether the corresponding reference is
non-null. -/
structure WebRTCState where
  peerSet : Bool
  connection : Bool
  mediaConnection : Bool
  localStream : Option MediaStream
  remoteStream : Option MediaStream
  mediaState : MediaState
  participantCount : Nat
deriving DecidableEq, Repr

namespace WebRTCManager

/-- Field initializers of a fresh `WebRTCManager`. -/
def initState : WebRTCState :=
  { peerSet := false, connection := false, mediaConnection := false,
    localStream := none, remoteStream := none,
    mediaState := { audioEnabled := true, videoEnabled := true, stream := none },
    participantCount := 0 }

/-- Model of `createSession()` up to the `new Peer(...)` assignment. -/
def createSessionStart (st : WebRTCState) : WebRTCState × List Effect :=
  ({ st with peerSet := true }, [])

/-- The `peer.on('open')` callback of `createSession`: sets
`participantCount = 1` and emits `'session-created'`. -/
def createSessionOpen (st : WebRTCState) : WebRTCState × List Effect :=
  ({ st with participantCount := 1 }, [Effect.emitEvent WEvent.sessionCreated])

/-- Model of `getLocalStream()`: idempotent once acquired; on first success stores
the stream in both `localStream` and `mediaState.stream` and emits
`'local-stream'`.  `newStream` is the stream `getUserMedia` would yield. -/
def getLocalStreamOp (st : WebRTCState) (newStream : MediaStream) :
    WebRTCState × List Effect :=
  match st.localStream with
  | some _ => (st, [])
  | none =>
      ({ st with localStream := some newStream,
                 mediaState := { st.mediaState with stream := some newStream } },
       [Effect.emitEvent WEvent.localStreamAcquired])

/-- The `peer.on('open')` success path of `joinSession`: acquires local
media if absent, opens the data connection and places the media call. -/
def joinSessionOpen (st : WebRTCState) (newStream : MediaStream) :
    WebRTCState × List Effect :=
  let acquired := getLocalStreamOp st newStream
  ({ acquired.1 with connection := true, mediaConnection := true }, acquired.2)

/-- The joiner's `connection.on('open')` callback: sets
`participantCount = 2` and emits `'connected'`. -/
def joinConnOpen (st : WebRTCState) : WebRTCState × List Effect :=
  ({ st with participantCount := 2 }, [Effect.emitEvent WEvent.connected])

/-- The `peer.on('call')` handler: an inbound call is rejected (closed,
nothing mutated) when `participantCount >= 2`; otherwise local media is
acquired if absent (`mediaOk` says whether `getUserMedia` succeeds — on
failure the call is closed and nothing is mutated), the call is answered
and `participantCount` becomes 2. -/
def handleIncomingCall (st : WebRTCState) (mediaOk : Bool) (newStream : MediaStream) :
    WebRTCState × List Effect :=
  if st.participantCount ≥ 2 then (st, [Effect.closeInboundCall])
  else
    match st.localStream with
    | some s =>
        ({ st with mediaConnection := true, participantCount := 2 },
         [Effect.answerCall s])
    | none =>
        if mediaOk then
          let st1 := { st with
            localStream := some newStream,
            mediaState := { st.mediaState with stream := some newStream } }
          ({ st1 with mediaConnection := true, participantCount := 2 },
           [Effect.emitEvent WEvent.localStreamAcquired, Effect.answerCall newStream])
        else (st, [Effect.closeInboundCall])

/-- The `peer.on('connection')` handler: an inbound data connection is
rejected (closed, nothing mutated) when `participantCount >= 2`;
otherwise it is stored and `participantCount` becomes 2. -/
def handleIncomingConn (st : WebRTCState) : WebRTCState × List Effect :=
  if st.participantCount ≥ 2 then (st, [Effect.closeInboundConn])
  else ({ st with connection := true, participantCount := 2 }, [])

/-- The inbound data connection's `'open'` callback. -/
def handleConnOpen (st : WebRTCState) : WebRTCState × List Effect :=
  (st, [Effect.emitEvent WEvent.connected])

/-- The data connection's `'data'` callback. -/
def handleConnData (st : WebRTCState) : WebRTCState × List Effect :=
  (st, [Effect.emitEvent WEvent.dataReceived])

/-- The data connection's `'close'` callback: it only emits
`'peer-disconnected'`. -/
def handleConnClose (st : WebRTCState) : WebRTCState × List Effect :=
  (st, [Effect.emitEvent WEvent.peerDisconnected])

/-- The `peer.on('disconnected')` callback. -/
def handlePeerDisconnected (st : WebRTCState) : WebRTCState × List Effect :=
  (st, [Effect.emitEvent WEvent.peerDisconnected])

/-- The `peer.on('close')` callback. -/
def handlePeerClose (st : WebRTCState) : WebRTCState × List Effect :=
  (st, [Effect.emitEvent WEvent.peerClosed])

/-- The media connection's `'stream'` callback. -/
def handleMediaStream (st : WebRTCState) (stream : MediaStream) :
    WebRTCState × List Effect :=
  ({ st with remoteStream := some stream },
   [Effect.emitEvent WEvent.remoteStreamReceived])

/-- The media connection's `'close'` callback: clears `remoteStream` and
emits `'media-connection-closed'`. -/
def handleMediaConnClose (st : WebRTCState) : WebRTCState × List Effect :=
  ({ st with remoteStream := none },
   [Effect.emitEvent WEvent.mediaConnectionClosed])

/-- Sets `enabled` on every track of the given kind, as the `forEach`
loops of `toggleAudio`/`toggleVideo` do. -/
def setTrackEnabled (kind : TrackKind) (enabled : Bool) (s : MediaStream) :
    MediaStream :=
  ⟨s.tracks.map (fun t => if t.kind == kind then { t with enabled := enabled } else t)⟩

/-- Model of `toggleAudio(enabled)`: no-op without a local stream; otherwise sets
every audio track's `enabled` bit, updates `mediaState.audioEnabled` and
emits `'audio-toggled'`.  `mediaState.stream` aliases `localStream`, so
the track mutation is visible through both. -/
def toggleAudio (st : WebRTCState) (enabled : Bool) : WebRTCState × List Effect :=
  match st.localStream with
  | none => (st, [])
  | some s =>
      ({ st with localStream := some (setTrackEnabled TrackKind.audio enabled s),
                 mediaState := { st.mediaState with
                   audioEnabled := enabled,
                   stream := st.mediaState.stream.map (setTrackEnabled TrackKind.audio enabled) } },
       [Effect.emitEvent (WEvent.audioToggled enabled)])

/-- Model of `toggleVideo(enabled)`, symmetric to `toggleAudio`. -/
def toggleVideo (st : WebRTCState) (enabled : Bool) : WebRTCState × List Effect :=
  match st.localStream with
  | none => (st, [])
  | some s =>
      ({ st with localStream := some (setTrackEnabled TrackKind.video enabled s),
                 mediaState := { st.mediaState with
                   videoEnabled := enabled,
                   stream := st.mediaState.stream.map (setTrackEnabled TrackKind.video enabled) } },
       [Effect.emitEvent (WEvent.videoToggled enabled)])

/-- Model of `sendData(data)`: best-effort, dropped unless the data connection
exists and is open (`connOpen` models the runtime `connection.open`). -/
def sendData (st : WebRTCState) (connOpen : Bool) : WebRTCState × List Effect :=
  if st.connection && connOpen then (st, [Effect.sendPayload]) else (st, [])

/-- Model of `disconnect()`: stops every local track, closes whichever of the data
connection, media connection and peer exist, clears all references,
resets `participantCount` and `mediaState`, and emits `'disconnected'`. -/
def disconnect (st : WebRTCState) : WebRTCState × List Effect :=
  let stopEffects := match st.localStream with
    | some s => s.tracks.map Effect.stopTrack
    | none => []
  let connEffects := if st.connection then [Effect.closeConnection] else []
  let mediaEffects := if st.mediaConnection then [Effect.closeMediaConnection] else []
  let peerEffects := if st.peerSet then [Effect.destroyPeer] else []
  (initState,
   stopEffects ++ connEffects ++ mediaEffects ++ peerEffects ++
     [Effect.emitEvent WEvent.disconnected])

/-- States reachable from a fresh manager through the operations and
callbacks above, with arbitrary external inputs. -/
inductive Reachable : WebRTCState → Prop where
  | init : Reachable initState
  | createStart {s} : Reachable s → Reachable (createSessionStart s).1
  | createOpen {s} : Reachable s → Reachable (createSessionOpen s).1
  | localStream {s} (ns : MediaStream) : Reachable s → Reachable (getLocalStreamOp s ns).1
  | joinOpen {s} (ns : MediaStream) : Reachable s → Reachable (joinSessionOpen s ns).1
  | joinConn {s} : Reachable s → Reachable (joinConnOpen s).1
  | inCall {s} (ok : Bool) (ns : MediaStream) :
      Reachable s → Reachable (handleIncomingCall s ok ns).1
  | inConn {s} : Reachable s → Reachable (handleIncomingConn s).1
  | connOpen {s} : Reachable s → Reachable (handleConnOpen s).1
  | connData {s} : Reachable s → Reachable (handleConnData s).1
  | connClose {s} : Reachable s → Reachable (handleConnClose s).1
  | peerDisc {s} : Reachable s → Reachable (handlePeerDisconnected s).1
  | peerClose {s} : Reachable s → Reachable (handlePeerClose s).1
  | mediaStream {s} (ns : MediaStream) : Reachable s → Reachable (handleMediaStream s ns).1
  | mediaClose {s} : Reachable s → Reachable (handleMediaConnClose s).1
  | audio {s} (e : Bool) : Reachable s → Reachable (toggleAudio s e).1
  | video {s} (e : Bool) : Reachable s → Reachable (toggleVideo s e).1
  | send {s} (o : Bool) : Reachable s → Reachable (sendData s o).1
  | disc {s} : Reachable s → Reachable (disconnect s).1

end WebRTCManager

/-! ### Concrete example states used by witnesses and counterexamples -/

/-- A local stream with one audio and one video track, both enabled. -/
def exStream : MediaStream := ⟨[⟨TrackKind.audio, true⟩, ⟨TrackKind.video, true⟩]⟩

/-- A fully-initialized state with a local stream. -/
def exToggleState : WebRTCState :=
  { peerSet := true, connection := true, mediaConnection := true,
    localStream := some exStream, remoteStream := none,
    mediaState := { audioEnabled := true, videoEnabled := true, stream := some exStream },
    participantCount := 1 }

/-- A paired state: two participants, remote stream attached. -/
def pairedState : WebRTCState :=
  { peerSet := true, connection := true, mediaConnection := true,
    localStream := some exStream, remoteStream := some ⟨[⟨TrackKind.video, true⟩]⟩,
    mediaState := { audioEnabled := true, videoEnabled := true, stream := some exStream },
    participantCount := 2 }

/-- The comparison the caption sort uses, as a relation. -/
def tsLE (a b : Caption) : Prop := a.timestamp ≤ b.timestamp

instance : DecidableRel tsLE := fun a b => Nat.decLe a.timestamp b.timestamp

instance : IsTotal Caption tsLE := ⟨fun a b => Nat.le_total a.timestamp b.timestamp⟩

instance : IsTrans Caption tsLE := ⟨fun _ _ _ h h2 => Nat.le_trans h h2⟩

/-! ## Theorems -/

open TranslationService in
/-- C5: when the normalized (region-stripped, lower-cased) source and target
tags are equal, `translate` makes no network call and returns the input text
unchanged with `service = 'fallback'`. -/
theorem translate_skip_on_equal_normalized_language
    (env : TranslationEnv) (text sourceLang targetLang : String)
    (h : normalizeLanguageCode sourceLang = normalizeLanguageCode targetLang) :
    translate env text sourceLang targetLang =
      (⟨text, sourceLang, targetLang, Service.fallback⟩, []) := by
  simp [TranslationService.translate, TranslationService.needsTranslation, h]

/-- Witness for `translate_skip_on_equal_normalized_language` at
`translate("hi", "en-US", "en-GB")` against a network that would answer. -/
theorem translate_skip_on_equal_normalized_language_witness :
    TranslationService.translate
        ⟨.response true 200 ⟨"bonjour"⟩, .response true 200 ⟨200, "salut"⟩⟩
        "hi" "en-US" "en-GB" =
      (⟨"hi", "en-US", "en-GB", Service.fallback⟩, []) :=
  translate_skip_on_equal_normalized_language
    ⟨.response true 200 ⟨"bonjour"⟩, .response true 200 ⟨200, "salut"⟩⟩
    "hi" "en-US" "en-GB" (by decide)

open TranslationService in
/-- C3: whenever translation is needed, the primary engine (LibreTranslate)
is attempted first; on its success the result is tagged with the primary
tag and the secondary is not called; on any failure of the primary the
secondary (MyMemory) is attempted; if the secondary also fails the original
text is returned tagged `fallback` with both engines having been attempted;
and the `service` tag is always one of the three tiers. -/
theorem translate_two_tier_fallback_chain
    (env : TranslationEnv) (text sourceLang targetLang : String)
    (h : needsTranslation sourceLang targetLang = true) :
    ((translate env text sourceLang targetLang).2.head? = some EngineCall.libre) ∧
    (∀ r, translateWithLibreTranslate env.libre = .ok r →
      translate env text sourceLang targetLang =
        (⟨r, sourceLang, targetLang, Service.libretranslate⟩, [EngineCall.libre])) ∧
    (translateWithLibreTranslate env.libre = .error () →
      (translate env text sourceLang targetLang).2 =
        [EngineCall.libre, EngineCall.mymemory]) ∧
    (∀ r, translateWithLibreTranslate env.libre = .error () →
      translateWithMyMemory env.mymemory = .ok r →
      translate env text sourceLang targetLang =
        (⟨r, sourceLang, targetLang, Service.mymemory⟩,
         [EngineCall.libre, EngineCall.mymemory])) ∧
    (translateWithLibreTranslate env.libre = .error () →
      translateWithMyMemory env.mymemory = .error () →
      translate env text sourceLang targetLang =
        (⟨text, sourceLang, targetLang, Service.fallback⟩,
         [EngineCall.libre, EngineCall.mymemory])) ∧
    ((translate env text sourceLang targetLang).1.service = Service.libretranslate ∨
     (translate env text sourceLang targetLang).1.service = Service.mymemory ∨
     (translate env text sourceLang targetLang).1.service = Service.fallback) := by
  refine ⟨?_, ?_, ?_, ?_, ?_, ?_⟩ <;>
    cases hl : translateWithLibreTranslate env.libre <;>
    cases hm : translateWithMyMemory env.mymemory <;>
    simp_all [TranslationService.translate]

/-- Witness for `translate_two_tier_fallback_chain`: both engines fail
(primary rejects, secondary answers a 429), translation from `en` to `es`
falls back to the original text after attempting both. -/
theorem translate_two_tier_fallback_chain_witness :
    TranslationService.translate
        ⟨.rejected, .response false 429 ⟨200, ""⟩⟩ "hi" "en" "es" =
      (⟨"hi", "en", "es", Service.fallback⟩,
       [EngineCall.libre, EngineCall.mymemory]) :=
  ((translate_two_tier_fallback_chain
      ⟨.rejected, .response false 429 ⟨200, ""⟩⟩ "hi" "en" "es"
      (by decide)).2.2.2.2.1 rfl rfl)

/-- C10: the auto-restart branch of `handleEnd` is dead code: the flag is
cleared before the guard reads it, so after an engine-initiated `'end'`
event the service is not running and `handleEnd` never issues an engine
start — its only effect is emitting `'end'`. -/
theorem handleEnd_never_restarts (st : SpeechState) :
    (SpeechRecognitionService.handleEnd st).1.isRunning = false ∧
    (SpeechRecognitionService.handleEnd st).2 = [SpeechEffect.emitEnd] ∧
    SpeechEffect.engineStart ∉ (SpeechRecognitionService.handleEnd st).2 := by
  simp [SpeechRecognitionService.handleEnd]

/-- C2 fails as stated: with source `en` and target `es` and both engines
failing, `TranslationService.translate` resolves (it never rejects) with
the passthrough result, so `createCaptionFromSpeech` marks the caption
`isTranslated = true` even though `text` equals `originalText` — refuting
`text = originalText ↔ isTranslated = false`. -/
theorem caption_text_iff_isTranslated_counterexample :
    (CaptionManager.createCaptionFromSpeech ⟨"es", "en", [], false⟩ "hi"
        (CaptionManager.runTranslate ⟨.rejected, .rejected⟩ "hi" "en" "es")
        "cap-1" 100).text =
      (CaptionManager.createCaptionFromSpeech ⟨"es", "en", [], false⟩ "hi"
        (CaptionManager.runTranslate ⟨.rejected, .rejected⟩ "hi" "en" "es")
        "cap-1" 100).originalText ∧
    (CaptionManager.createCaptionFromSpeech ⟨"es", "en", [], false⟩ "hi"
        (CaptionManager.runTranslate ⟨.rejected, .rejected⟩ "hi" "en" "es")
        "cap-1" 100).isTranslated = true := by
  decide

/-- C2 amended: only the forward direction holds.  For captions built from
a local recognition result, and for captions built from a remote caption
message whose payload itself satisfies the invariant,
`isTranslated = false` implies `text = originalText`; the converse fails
(see the counterexample). -/
theorem caption_isTranslated_false_implies_text_eq_original
    (st : CaptionManagerState) (resultText : String)
    (tr : Except Unit TranslationResult) (id : String) (now : Nat)
    (st2 : CaptionManagerState) (rc : RemoteCaption)
    (tr2 : Except Unit TranslationResult) (id2 : String) (now2 : Nat)
    (c : Caption)
    (hrc : rc.isTranslated = false → rc.text = rc.originalText)
    (hlocal : (CaptionManager.createCaptionFromSpeech st resultText tr id now).isTranslated
        = false)
    (hc : CMEffect.emitCaption c ∈ (CaptionManager.processRemoteCaption st2 rc tr2 id2 now2).2)
    (hcf : c.isTranslated = false) :
    (CaptionManager.createCaptionFromSpeech st resultText tr id now).text =
      (CaptionManager.createCaptionFromSpeech st resultText tr id now).originalText ∧
    c.text = c.originalText := by
  constructor
  · unfold CaptionManager.createCaptionFromSpeech at hlocal ⊢
    by_cases hn : TranslationService.needsTranslation st.sourceLanguage st.targetLanguage
        = true
    · cases tr <;> simp_all
    · simp_all
  · simp only [CaptionManager.processRemoteCaption] at hc
    by_cases hd : (rc.originalText != "" &&
        TranslationService.needsTranslation st2.sourceLanguage st2.targetLanguage) = true
    · rw [if_pos hd] at hc
      cases tr2 with
      | ok v =>
          simp at hc
          subst hc
          simp at hcf
      | error e =>
          simp at hc
          subst hc
          simpa using hrc (by simpa using hcf)
    · rw [if_neg hd] at hc
      simp at hc
      subst hc
      simpa using hrc (by simpa using hcf)

/-- Witness for `caption_isTranslated_false_implies_text_eq_original` at a
concrete untranslated local caption and a concrete remote caption. -/
theorem caption_isTranslated_false_implies_text_eq_original_witness :
    (CaptionManager.createCaptionFromSpeech ⟨"en", "en", [], false⟩ "hello"
        (.error ()) "cap-2" 7).text =
      (CaptionManager.createCaptionFromSpeech ⟨"en", "en", [], false⟩ "hello"
        (.error ()) "cap-2" 7).originalText ∧
    (Caption.mk "cap-3" "hola" "hola" .remoteS 9 "en" false).text =
      (Caption.mk "cap-3" "hola" "hola" .remoteS 9 "en" false).originalText :=
  caption_isTranslated_false_implies_text_eq_original
    ⟨"en", "en", [], false⟩ "hello" (.error ()) "cap-2" 7
    ⟨"en", "en", [], false⟩ ⟨"hola", "hola", .remoteS, "en", false⟩
    (.error ()) "cap-3" 9 ⟨"cap-3", "hola", "hola", .remoteS, 9, "en", false⟩
    (by decide) (by decide) (by decide) (by decide)

/-- C4: `setMuted(true)` from the unmuted state stops the recognition
service; `setMuted(false)` from the muted state starts it; setting the
same value is a no-op with no side effect; while muted every recognition
result is discarded before caption creation (no caption enqueued or
emitted, no translation call); after unmuting, the next result produces a
caption again. -/
theorem setMuted_contract_and_muted_discard
    (s1 : CaptionManagerState) (h1 : s1.isMuted = false)
    (s2 : CaptionManagerState) (h2 : s2.isMuted = true)
    (s3 : CaptionManagerState)
    (s4 : CaptionManagerState) (h4 : s4.isMuted = true)
    (text : String) (tr : Except Unit TranslationResult) (id : String) (now : Nat) :
    CaptionManager.setMuted s1 true =
      ({ s1 with isMuted := true }, [CMEffect.speechStop]) ∧
    CaptionManager.setMuted s2 false =
      ({ s2 with isMuted := false }, [CMEffect.speechStart]) ∧
    CaptionManager.setMuted s3 s3.isMuted = (s3, []) ∧
    CaptionManager.onRecognitionResult s4 text tr id now = (s4, []) ∧
    (CaptionManager.onRecognitionResult
        (CaptionManager.setMuted s4 false).1 text tr id now).1.captionQueue.length
      = s4.captionQueue.length + 1 ∧
    (∃ c, CMEffect.emitCaption c ∈
      (CaptionManager.onRecognitionResult
        (CaptionManager.setMuted s4 false).1 text tr id now).2) := by
  refine ⟨?_, ?_, ?_, ?_, ?_, ?_⟩
  · simp [CaptionManager.setMuted, h1]
  · simp [CaptionManager.setMuted, h2]
  · cases hm : s3.isMuted <;> simp [CaptionManager.setMuted, hm] <;> cases s3 <;> simp_all
  · simp [CaptionManager.onRecognitionResult, h4]
  · simp [CaptionManager.setMuted, CaptionManager.onRecognitionResult, h4]
  · refine ⟨CaptionManager.createCaptionFromSpeech
        (CaptionManager.setMuted s4 false).1 text tr id now, ?_⟩
    simp [CaptionManager.setMuted, CaptionManager.onRecognitionResult, h4]

/-- Witness for `setMuted_contract_and_muted_discard` on concrete states. -/
theorem setMuted_contract_and_muted_discard_witness :
    CaptionManager.setMuted ⟨"en", "en", [], false⟩ true =
      (⟨"en", "en", [], true⟩, [CMEffect.speechStop]) ∧
    CaptionManager.setMuted ⟨"en", "en", [], true⟩ false =
      (⟨"en", "en", [], false⟩, [CMEffect.speechStart]) ∧
    CaptionManager.setMuted ⟨"es", "en", [], false⟩
        (CaptionManagerState.mk "es" "en" [] false).isMuted =
      (⟨"es", "en", [], false⟩, []) ∧
    CaptionManager.onRecognitionResult ⟨"en", "en", [], true⟩ "hey" (.error ()) "c9" 3 =
      (⟨"en", "en", [], true⟩, []) ∧
    (CaptionManager.onRecognitionResult
        (CaptionManager.setMuted ⟨"en", "en", [], true⟩ false).1
        "hey" (.error ()) "c9" 3).1.captionQueue.length
      = (CaptionManagerState.mk "en" "en" [] true).captionQueue.length + 1 ∧
    (∃ c, CMEffect.emitCaption c ∈
      (CaptionManager.onRecognitionResult
        (CaptionManager.setMuted ⟨"en", "en", [], true⟩ false).1
        "hey" (.error ()) "c9" 3).2) :=
  setMuted_contract_and_muted_discard
    ⟨"en", "en", [], false⟩ (by decide)
    ⟨"en", "en", [], true⟩ (by decide)
    ⟨"es", "en", [], false⟩
    ⟨"en", "en", [], true⟩ (by decide)
    "hey" (.error ()) "c9" 3

/-- The stable insertion used by the caption sort is Mathlib's
`orderedInsert` under the timestamp order. -/
theorem insertByTimestamp_eq_orderedInsert (c : Caption) (l : List Caption) :
    CaptionManager.insertByTimestamp c l = List.orderedInsert tsLE c l := by
  induction l with
  | nil => rfl
  | cons d ds ih =>
      simp only [CaptionManager.insertByTimestamp, List.orderedInsert, ih, tsLE]

/-- The caption sort is Mathlib's (stable) insertion sort under the
timestamp order. -/
theorem sortByTimestamp_eq_insertionSort (l : List Caption) :
    CaptionManager.sortByTimestamp l = List.insertionSort tsLE l := by
  induction l with
  | nil => rfl
  | cons c cs ih =>
      simp only [CaptionManager.sortByTimestamp, List.insertionSort, ih,
        insertByTimestamp_eq_orderedInsert]

/-- C6: `getCaptions()` returns a permutation of the caption log that is
sorted non-decreasing by timestamp, and the sort is stable: whenever `A`
was enqueued strictly before `B` and `B`'s timestamp is not strictly
smaller, `A` still precedes `B` in the output. -/
theorem getCaptions_sorted_by_timestamp_stable
    (st : CaptionManagerState) (A B : Caption)
    (hAB : A.timestamp ≤ B.timestamp)
    (hsub : [A, B].Sublist st.captionQueue) :
    (CaptionManager.getCaptions st).Perm st.captionQueue ∧
    List.Pairwise tsLE (CaptionManager.getCaptions st) ∧
    [A, B].Sublist (CaptionManager.getCaptions st) := by
  have he : CaptionManager.getCaptions st =
      List.insertionSort tsLE st.captionQueue :=
    sortByTimestamp_eq_insertionSort st.captionQueue
  refine ⟨?_, ?_, ?_⟩
  · rw [he]; exact List.perm_insertionSort tsLE st.captionQueue
  · rw [he]; exact List.sorted_insertionSort tsLE st.captionQueue
  · rw [he]; exact List.pair_sublist_insertionSort hAB hsub

/-- Witness for `getCaptions_sorted_by_timestamp_stable` on a three-element
log with a timestamp tie between the outer captions. -/
theorem getCaptions_sorted_by_timestamp_stable_witness :
    (CaptionManager.getCaptions
        ⟨"en", "en",
         [⟨"a", "x", "x", .localS, 5, "en", false⟩,
          ⟨"b", "y", "y", .remoteS, 3, "en", false⟩,
          ⟨"c", "z", "z", .localS, 5, "en", false⟩], false⟩).Perm
      [⟨"a", "x", "x", .localS, 5, "en", false⟩,
       ⟨"b", "y", "y", .remoteS, 3, "en", false⟩,
       ⟨"c", "z", "z", .localS, 5, "en", false⟩] ∧
    List.Pairwise tsLE
      (CaptionManager.getCaptions
        ⟨"en", "en",
         [⟨"a", "x", "x", .localS, 5, "en", false⟩,
          ⟨"b", "y", "y", .remoteS, 3, "en", false⟩,
          ⟨"c", "z", "z", .localS, 5, "en", false⟩], false⟩) ∧
    [Caption.mk "a" "x" "x" .localS 5 "en" false,
     Caption.mk "c" "z" "z" .localS 5 "en" false].Sublist
      (CaptionManager.getCaptions
        ⟨"en", "en",
         [⟨"a", "x", "x", .localS, 5, "en", false⟩,
          ⟨"b", "y", "y", .remoteS, 3, "en", false⟩,
          ⟨"c", "z", "z", .localS, 5, "en", false⟩], false⟩) :=
  getCaptions_sorted_by_timestamp_stable
    ⟨"en", "en",
     [⟨"a", "x", "x", .localS, 5, "en", false⟩,
      ⟨"b", "y", "y", .remoteS, 3, "en", false⟩,
      ⟨"c", "z", "z", .localS, 5, "en", false⟩], false⟩
    ⟨"a", "x", "x", .localS, 5, "en", false⟩
    ⟨"c", "z", "z", .localS, 5, "en", false⟩
    (by decide) (by decide)

/-- Track-list form: the map underlying `setTrackEnabled` leaves tracks of
any other kind untouched. -/
theorem filter_map_setTrack_other {k k' : TrackKind} (h : k ≠ k') (e : Bool) :
    ∀ ts : List MediaTrack,
      (ts.map (fun t => if t.kind == k then MediaTrack.mk t.kind e else t)).filter
          (fun t => t.kind == k')
        = ts.filter (fun t => t.kind == k') := by
  intro ts
  induction ts with
  | nil => rfl
  | cons t ts ih =>
      simp only [List.map_cons, List.filter_cons]
      by_cases hk : t.kind = k
      · subst hk
        have h2 : (t.kind == k') = false := by simpa using h
        simp_all
      · have h3 : (t.kind == k) = false := by simpa using hk
        have h4 : ¬k' = k := fun hh => h hh.symm
        simp_all

/-- Tracks of the other kind are untouched by `setTrackEnabled`. -/
theorem filter_setTrackEnabled_other {k k' : TrackKind} (h : k ≠ k')
    (e : Bool) (s : MediaStream) :
    (WebRTCManager.setTrackEnabled k e s).tracks.filter (fun t => t.kind == k')
      = s.tracks.filter (fun t => t.kind == k') :=
  filter_map_setTrack_other h e s.tracks

/-- Tracks of the toggled kind all carry the requested `enabled` bit after
`setTrackEnabled`. -/
theorem filter_setTrackEnabled_same (k : TrackKind) (e : Bool) :
    ∀ ts : List MediaTrack,
      ∀ t ∈ ts.map (fun t => if t.kind == k then MediaTrack.mk t.kind e else t),
        t.kind = k → t.enabled = e := by
  intro ts
  induction ts with
  | nil => intro t ht; simp at ht
  | cons u us ih =>
      intro t ht hk
      rcases List.mem_cons.mp ht with h1 | h2
      · subst h1
        by_cases hu : u.kind = k
        · simp [hu]
        · have h3 : (u.kind == k) = false := by simpa using hu
          simp [h3] at hk
          exact absurd hk hu
      · exact ih t h2 hk

/-- C7: `toggleAudio(enabled)` mutates only the audio side — it sets
`mediaState.audioEnabled` and the audio tracks' `enabled` bits, leaves
`videoEnabled`, the video tracks and the connection/participant fields
unchanged, and emits `'audio-toggled'`; `toggleVideo` is symmetric; both
are complete no-ops when no local stream exists yet. -/
theorem toggleAudio_toggleVideo_independent
    (s0 : WebRTCState) (h0 : s0.localStream = none)
    (st : WebRTCState) (s : MediaStream) (hs : st.localStream = some s) (e : Bool) :
    WebRTCManager.toggleAudio s0 e = (s0, []) ∧
    WebRTCManager.toggleVideo s0 e = (s0, []) ∧
    (WebRTCManager.toggleAudio st e).1.mediaState.audioEnabled = e ∧
    (WebRTCManager.toggleAudio st e).1.mediaState.videoEnabled
      = st.mediaState.videoEnabled ∧
    (WebRTCManager.toggleVideo st e).1.mediaState.videoEnabled = e ∧
    (WebRTCManager.toggleVideo st e).1.mediaState.audioEnabled
      = st.mediaState.audioEnabled ∧
    ((WebRTCManager.toggleAudio st e).1.localStream.getD ⟨[]⟩).getVideoTracks
      = s.getVideoTracks ∧
    ((WebRTCManager.toggleVideo st e).1.localStream.getD ⟨[]⟩).getAudioTracks
      = s.getAudioTracks ∧
    (∀ t ∈ ((WebRTCManager.toggleAudio st e).1.localStream.getD ⟨[]⟩).getAudioTracks,
      t.enabled = e) ∧
    (∀ t ∈ ((WebRTCManager.toggleVideo st e).1.localStream.getD ⟨[]⟩).getVideoTracks,
      t.enabled = e) ∧
    (WebRTCManager.toggleAudio st e).2 = [Effect.emitEvent (WEvent.audioToggled e)] ∧
    (WebRTCManager.toggleVideo st e).2 = [Effect.emitEvent (WEvent.videoToggled e)] ∧
    (WebRTCManager.toggleAudio st e).1.participantCount = st.participantCount ∧
    (WebRTCManager.toggleAudio st e).1.remoteStream = st.remoteStream ∧
    (WebRTCManager.toggleAudio st e).1.connection = st.connection ∧
    (WebRTCManager.toggleVideo st e).1.participantCount = st.participantCount ∧
    (WebRTCManager.toggleVideo st e).1.remoteStream = st.remoteStream ∧
    (WebRTCManager.toggleVideo st e).1.connection = st.connection := by
  refine ⟨?_, ?_, ?_, ?_, ?_, ?_, ?_, ?_, ?_, ?_, ?_, ?_, ?_, ?_, ?_, ?_, ?_, ?_⟩ <;>
    simp [WebRTCManager.toggleAudio, WebRTCManager.toggleVideo, h0, hs,
      MediaStream.getVideoTracks, MediaStream.getAudioTracks]
  · exact filter_setTrackEnabled_other (by decide) e s
  · exact filter_setTrackEnabled_other (by decide) e s
  · exact filter_setTrackEnabled_same TrackKind.audio e s.tracks
  · exact filter_setTrackEnabled_same TrackKind.video e s.tracks

/-- Witness for `toggleAudio_toggleVideo_independent`: toggling audio off
on a state whose stream has both kinds of track. -/
theorem toggleAudio_toggleVideo_independent_witness :
    WebRTCManager.toggleAudio WebRTCManager.initState false
      = (WebRTCManager.initState, []) ∧
    WebRTCManager.toggleVideo WebRTCManager.initState false
      = (WebRTCManager.initState, []) ∧
    (WebRTCManager.toggleAudio exToggleState false).1.mediaState.audioEnabled = false ∧
    (WebRTCManager.toggleAudio exToggleState false).1.mediaState.videoEnabled
      = exToggleState.mediaState.videoEnabled ∧
    (WebRTCManager.toggleVideo exToggleState false).1.mediaState.videoEnabled = false ∧
    (WebRTCManager.toggleVideo exToggleState false).1.mediaState.audioEnabled
      = exToggleState.mediaState.audioEnabled ∧
    ((WebRTCManager.toggleAudio exToggleState false).1.localStream.getD ⟨[]⟩).getVideoTracks
      = exStream.getVideoTracks ∧
    ((WebRTCManager.toggleVideo exToggleState false).1.localStream.getD ⟨[]⟩).getAudioTracks
      = exStream.getAudioTracks ∧
    (∀ t ∈ ((WebRTCManager.toggleAudio exToggleState false).1.localStream.getD
        ⟨[]⟩).getAudioTracks, t.enabled = false) ∧
    (∀ t ∈ ((WebRTCManager.toggleVideo exToggleState false).1.localStream.getD
        ⟨[]⟩).getVideoTracks, t.enabled = false) ∧
    (WebRTCManager.toggleAudio exToggleState false).2
      = [Effect.emitEvent (WEvent.audioToggled false)] ∧
    (WebRTCManager.toggleVideo exToggleState false).2
      = [Effect.emitEvent (WEvent.videoToggled false)] ∧
    (WebRTCManager.toggleAudio exToggleState false).1.participantCount
      = exToggleState.participantCount ∧
    (WebRTCManager.toggleAudio exToggleState false).1.remoteStream
      = exToggleState.remoteStream ∧
    (WebRTCManager.toggleAudio exToggleState false).1.connection
      = exToggleState.connection ∧
    (WebRTCManager.toggleVideo exToggleState false).1.participantCount
      = exToggleState.participantCount ∧
    (WebRTCManager.toggleVideo exToggleState false).1.remoteStream
      = exToggleState.remoteStream ∧
    (WebRTCManager.toggleVideo exToggleState false).1.connection
      = exToggleState.connection :=
  toggleAudio_toggleVideo_independent
    WebRTCManager.initState rfl exToggleState exStream rfl false

/-- C8 fails as stated: from a paired state, the remote data connection
closing (the handler that emits `'peer-disconnected'`) leaves
`participantCount` at 2 — it does not revert to 1 — and does not clear the
remote-stream reference; consequently a new inbound pairing attempt is
rejected rather than accepted, so the endpoint is not reusable without
recreating it.  The remote stream is cleared only by the media
connection's close handler, which emits `'media-connection-closed'`
instead of `'peer-disconnected'`. -/
theorem paired_remote_departure_counterexample :
    (WebRTCManager.handleConnClose pairedState).2
      = [Effect.emitEvent WEvent.peerDisconnected] ∧
    (WebRTCManager.handleConnClose pairedState).1.participantCount = 2 ∧
    ¬(WebRTCManager.handleConnClose pairedState).1.participantCount = 1 ∧
    ¬(WebRTCManager.handleConnClose pairedState).1.remoteStream = none ∧
    (WebRTCManager.handleIncomingConn
        (WebRTCManager.handleConnClose pairedState).1).2
      = [Effect.closeInboundConn] ∧
    (WebRTCManager.handleIncomingConn
        (WebRTCManager.handleConnClose pairedState).1).1.participantCount = 2 ∧
    (WebRTCManager.handleMediaConnClose pairedState).2
      = [Effect.emitEvent WEvent.mediaConnectionClosed] ∧
    Effect.emitEvent WEvent.peerDisconnected
      ∉ (WebRTCManager.handleMediaConnClose pairedState).2 := by
  decide

/-- C8 amended: on remote departure the data-connection close handler only
emits `'peer-disconnected'`, leaving `participantCount` and the
remote-stream reference untouched; the media-connection close handler
clears the remote stream and emits `'media-connection-closed'`; no handler
reverts the count to 1, so after a remote departure from the paired state
a new inbound attempt is still rejected. -/
theorem remote_departure_behavior
    (st : WebRTCState) (st2 : WebRTCState) (h2 : st2.participantCount = 2) :
    (WebRTCManager.handleConnClose st).1 = st ∧
    (WebRTCManager.handleConnClose st).2
      = [Effect.emitEvent WEvent.peerDisconnected] ∧
    (WebRTCManager.handleMediaConnClose st).1
      = { st with remoteStream := none } ∧
    (WebRTCManager.handleMediaConnClose st).1.participantCount
      = st.participantCount ∧
    (WebRTCManager.handleMediaConnClose st).2
      = [Effect.emitEvent WEvent.mediaConnectionClosed] ∧
    (WebRTCManager.handlePeerDisconnected st).1 = st ∧
    WebRTCManager.handleIncomingConn (WebRTCManager.handleConnClose st2).1
      = ((WebRTCManager.handleConnClose st2).1, [Effect.closeInboundConn]) ∧
    (∀ ok ns, WebRTCManager.handleIncomingCall
        (WebRTCManager.handleConnClose st2).1 ok ns
      = ((WebRTCManager.handleConnClose st2).1, [Effect.closeInboundCall])) := by
  refine ⟨rfl, rfl, rfl, rfl, rfl, rfl, ?_, ?_⟩
  · simp [WebRTCManager.handleConnClose, WebRTCManager.handleIncomingConn, h2]
  · intro ok ns
    simp [WebRTCManager.handleConnClose, WebRTCManager.handleIncomingCall, h2]

/-- Witness for `remote_departure_behavior` at the concrete paired state. -/
theorem remote_departure_behavior_witness :
    (WebRTCManager.handleConnClose WebRTCManager.initState).1
      = WebRTCManager.initState ∧
    (WebRTCManager.handleConnClose WebRTCManager.initState).2
      = [Effect.emitEvent WEvent.peerDisconnected] ∧
    (WebRTCManager.handleMediaConnClose WebRTCManager.initState).1
      = { WebRTCManager.initState with remoteStream := none } ∧
    (WebRTCManager.handleMediaConnClose WebRTCManager.initState).1.participantCount
      = WebRTCManager.initState.participantCount ∧
    (WebRTCManager.handleMediaConnClose WebRTCManager.initState).2
      = [Effect.emitEvent WEvent.mediaConnectionClosed] ∧
    (WebRTCManager.handlePeerDisconnected WebRTCManager.initState).1
      = WebRTCManager.initState ∧
    WebRTCManager.handleIncomingConn (WebRTCManager.handleConnClose pairedState).1
      = ((WebRTCManager.handleConnClose pairedState).1, [Effect.closeInboundConn]) ∧
    (∀ ok ns, WebRTCManager.handleIncomingCall
        (WebRTCManager.handleConnClose pairedState).1 ok ns
      = ((WebRTCManager.handleConnClose pairedState).1, [Effect.closeInboundCall])) :=
  remote_departure_behavior WebRTCManager.initState pairedState rfl

/-- C9: `disconnect()` always reaches the single reset state — references
cleared, `participantCount = 0`, `mediaState` back to defaults — emitting
`'disconnected'`; it stops every local track and closes/destroys exactly
the resources that exist, and calling it again from the reset state (or
from any partially-initialized state, since `st` is arbitrary) is safe and
yields the same reset state. -/
theorem disconnect_resets_and_is_idempotent
    (st : WebRTCState)
    (stc : WebRTCState) (hc : stc.connection = true)
    (stm : WebRTCState) (hm : stm.mediaConnection = true)
    (stp : WebRTCState) (hp : stp.peerSet = true)
    (sts : WebRTCState) (s : MediaStream) (t : MediaTrack)
    (hsx : sts.localStream = some s) (ht : t ∈ s.tracks) :
    (WebRTCManager.disconnect st).1 = WebRTCManager.initState ∧
    (WebRTCManager.disconnect st).1.participantCount = 0 ∧
    (WebRTCManager.disconnect st).1.mediaState
      = ⟨true, true, none⟩ ∧
    (WebRTCManager.disconnect st).1.remoteStream = none ∧
    Effect.emitEvent WEvent.disconnected ∈ (WebRTCManager.disconnect st).2 ∧
    (WebRTCManager.disconnect (WebRTCManager.disconnect st).1).1
      = (WebRTCManager.disconnect st).1 ∧
    Effect.closeConnection ∈ (WebRTCManager.disconnect stc).2 ∧
    Effect.closeMediaConnection ∈ (WebRTCManager.disconnect stm).2 ∧
    Effect.destroyPeer ∈ (WebRTCManager.disconnect stp).2 ∧
    Effect.stopTrack t ∈ (WebRTCManager.disconnect sts).2 := by
  refine ⟨rfl, rfl, rfl, rfl, ?_, rfl, ?_, ?_, ?_, ?_⟩
  · simp [WebRTCManager.disconnect]
  · simp [WebRTCManager.disconnect, hc]
  · simp [WebRTCManager.disconnect, hm]
  · simp [WebRTCManager.disconnect, hp]
  · simp [WebRTCManager.disconnect, hsx]
    exact ht

/-- Witness for `disconnect_resets_and_is_idempotent` at the concrete
paired state (all resources present). -/
theorem disconnect_resets_and_is_idempotent_witness :
    (WebRTCManager.disconnect pairedState).1 = WebRTCManager.initState ∧
    (WebRTCManager.disconnect pairedState).1.participantCount = 0 ∧
    (WebRTCManager.disconnect pairedState).1.mediaState
      = ⟨true, true, none⟩ ∧
    (WebRTCManager.disconnect pairedState).1.remoteStream = none ∧
    Effect.emitEvent WEvent.disconnected ∈ (WebRTCManager.disconnect pairedState).2 ∧
    (WebRTCManager.disconnect (WebRTCManager.disconnect pairedState).1).1
      = (WebRTCManager.disconnect pairedState).1 ∧
    Effect.closeConnection ∈ (WebRTCManager.disconnect pairedState).2 ∧
    Effect.closeMediaConnection ∈ (WebRTCManager.disconnect pairedState).2 ∧
    Effect.destroyPeer ∈ (WebRTCManager.disconnect pairedState).2 ∧
    Effect.stopTrack ⟨TrackKind.audio, true⟩
      ∈ (WebRTCManager.disconnect pairedState).2 :=
  disconnect_resets_and_is_idempotent
    pairedState pairedState rfl pairedState rfl pairedState rfl
    pairedState exStream ⟨TrackKind.audio, true⟩ rfl (by decide)

/-- Operation `getLocalStream` never changes the participant count. -/
theorem getLocalStreamOp_participantCount (s : WebRTCState) (ns : MediaStream) :
    (WebRTCManager.getLocalStreamOp s ns).1.participantCount = s.participantCount := by
  unfold WebRTCManager.getLocalStreamOp
  split <;> simp

/-- Every reachable manager state has at most two participants. -/
theorem reachable_participantCount_le_two {s : WebRTCState}
    (h : WebRTCManager.Reachable s) : s.participantCount ≤ 2 := by
  induction h with
  | init => decide
  | createStart h ih => simpa [WebRTCManager.createSessionStart] using ih
  | createOpen h ih => simp [WebRTCManager.createSessionOpen]
  | localStream ns h ih =>
      simpa [getLocalStreamOp_participantCount] using ih
  | joinOpen ns h ih =>
      simpa [WebRTCManager.joinSessionOpen, getLocalStreamOp_participantCount] using ih
  | joinConn h ih => simp [WebRTCManager.joinConnOpen]
  | inCall ok ns h ih =>
      unfold WebRTCManager.handleIncomingCall
      split
      · exact ih
      · split
        · simp
        · split
          · simp
          · exact ih
  | inConn h ih =>
      unfold WebRTCManager.handleIncomingConn
      split
      · exact ih
      · simp
  | connOpen h ih => exact ih
  | connData h ih => exact ih
  | connClose h ih => exact ih
  | peerDisc h ih => exact ih
  | peerClose h ih => exact ih
  | mediaStream ns h ih => simpa [WebRTCManager.handleMediaStream] using ih
  | mediaClose h ih => simpa [WebRTCManager.handleMediaConnClose] using ih
  | audio e h ih =>
      unfold WebRTCManager.toggleAudio
      split
      · exact ih
      · simpa using ih
  | video e h ih =>
      unfold WebRTCManager.toggleVideo
      split
      · exact ih
      · simpa using ih
  | send o h ih =>
      unfold WebRTCManager.sendData
      split
      · exact ih
      · exact ih
  | disc h ih => simp [WebRTCManager.disconnect, WebRTCManager.initState]

/-- C1: `participantCount` stays in `{0, 1, 2}` on every reachable state;
a successful `createSession` sets it to 1; an accepted inbound call (local
stream present or acquirable) or inbound data connection sets it to 2; and
any inbound attempt arriving at count 2 is rejected — the inbound
connection is closed immediately and the state (count, connection,
media connection, remote stream) is returned entirely unchanged. -/
theorem participantCount_invariant_and_capacity
    (s : WebRTCState) (hs : WebRTCManager.Reachable s)
    (s1 : WebRTCState)
    (sa : WebRTCState) (ha : sa.participantCount < 2) (ok : Bool) (ns : MediaStream)
    (hstream : sa.localStream.isSome = true ∨ ok = true)
    (sb : WebRTCState) (hb : sb.participantCount < 2)
    (sr : WebRTCState) (hr : sr.participantCount = 2) (ok2 : Bool) (ns2 : MediaStream) :
    s.participantCount ≤ 2 ∧
    (WebRTCManager.createSessionOpen s1).1.participantCount = 1 ∧
    (WebRTCManager.handleIncomingCall sa ok ns).1.participantCount = 2 ∧
    (WebRTCManager.handleIncomingConn sb).1.participantCount = 2 ∧
    WebRTCManager.handleIncomingCall sr ok2 ns2 = (sr, [Effect.closeInboundCall]) ∧
    WebRTCManager.handleIncomingConn sr = (sr, [Effect.closeInboundConn]) := by
  refine ⟨reachable_participantCount_le_two hs, rfl, ?_, ?_, ?_, ?_⟩
  · unfold WebRTCManager.handleIncomingCall
    have hlt : ¬sa.participantCount ≥ 2 := by omega
    rw [if_neg hlt]
    rcases hstream with hsome | hok
    · rcases Option.isSome_iff_exists.mp hsome with ⟨str, hstr⟩
      rw [hstr]
    · cases hloc : sa.localStream with
      | some str => rfl
      | none => rw [hok, if_pos rfl]
  · unfold WebRTCManager.handleIncomingConn
    have hlt : ¬sb.participantCount ≥ 2 := by omega
    rw [if_neg hlt]
  · unfold WebRTCManager.handleIncomingCall
    rw [if_pos (by omega)]
  · unfold WebRTCManager.handleIncomingConn
    rw [if_pos (by omega)]

/-- Witness for `participantCount_invariant_and_capacity`: the initial
state is reachable; an inbound call into a one-participant state with a
local stream is accepted (count 2); inbound attempts at the paired state
are rejected unchanged. -/
theorem participantCount_invariant_and_capacity_witness :
    WebRTCManager.initState.participantCount ≤ 2 ∧
    (WebRTCManager.createSessionOpen WebRTCManager.initState).1.participantCount = 1 ∧
    (WebRTCManager.handleIncomingCall exToggleState false exStream).1.participantCount
      = 2 ∧
    (WebRTCManager.handleIncomingConn exToggleState).1.participantCount = 2 ∧
    WebRTCManager.handleIncomingCall pairedState true exStream
      = (pairedState, [Effect.closeInboundCall]) ∧
    WebRTCManager.handleIncomingConn pairedState
      = (pairedState, [Effect.closeInboundConn]) :=
  participantCount_invariant_and_capacity
    WebRTCManager.initState WebRTCManager.Reachable.init
    WebRTCManager.initState
    exToggleState (by decide) false exStream (Or.inl (by decide))
    exToggleState (by decide)
    pairedState (by decide) true exStream

end VideoHack
